import Mathlib

set_option maxRecDepth 4000


/-!
Verification of the carbon-footprint calculator (src/ETE-2.py) against its
natural-language specification.

The Python source is shallowly embedded below.  Machine floats are modelled
by exact rationals (`ℚ`); where the source performs a float division whose
denominator may be zero (numpy/pandas semantics: the result is an IEEE
infinity or NaN, displayed rather than raised), the embedding returns the
distinguished outcome `FloatDivOutcome.nonfinite`.  Python dictionary
lookups that may raise `KeyError` (and uses of a nested-dict value where a
number is required, which raise `TypeError`) are embedded as `Option`
lookups returning `none`; a computation that would abort with an uncaught
exception before mutating the session history is a computation returning
`none` here.
-/

/-- The five recyclable material categories offered by the multiselect
(src/ETE-2.py line 119-122). -/
inductive Material
  | Paper
  | Plastic
  | Glass
  | Metal
  | Electronics
deriving DecidableEq, Fintype

/-- The five emission categories, in the order of the Python list
`categories = ['transport', 'home_energy', 'diet', 'consumption', 'waste']`
(line 356). -/
inductive Category
  | transport
  | home_energy
  | diet
  | consumption
  | waste
deriving DecidableEq, Fintype

/-- One lifestyle-profile snapshot: the input variables collected by the
form tabs of src/ETE-2.py (lines 39-140), with the enum-valued fields kept
as the strings the source uses as dictionary keys. -/
structure Profile where
  transport_mode : String
  daily_distance : ℚ
  fuel_efficiency : ℚ
  flight_short : ℕ
  flight_medium : ℕ
  flight_long : ℕ
  electricity_kwh : ℚ
  renewable_percentage : ℚ
  heating_type : String
  heating_usage : ℚ
  has_ac : Bool
  ac_hours : ℚ
  diet_type : String
  local_food : ℚ
  organic_food : ℚ
  food_waste : ℚ
  processed_food : ℚ
  clothing_spending : String
  electronics_yearly : ℕ
  recycled_items : Finset Material
  second_hand : ℚ
  waste_weekly : ℚ
  composting : Bool
  recycling_rate : ℚ
  zero_waste : String
deriving DecidableEq

/-- The flat scalar entries of the `emission_factors` dictionary
(src/ETE-2.py lines 143-198).  The keys `Clothing Spending` and
`Zero Waste Efforts` hold nested dictionaries, not numbers; using them
where a number is required raises `TypeError` in Python, so the flat
lookup returns `none` for them (they are served by `clothing_table` and
`zero_waste_table` below).  Any key absent from the dictionary raises
`KeyError`, i.e. `none`. -/
def emission_factors : String → Option ℚ
  | "Car (Gasoline)" => some (192/1000 : ℚ)
  | "Car (Diesel)" => some (171/1000 : ℚ)
  | "Car (Electric)" => some (53/1000 : ℚ)
  | "Car (Hybrid)" => some (106/1000 : ℚ)
  | "Public Bus" => some (105/1000 : ℚ)
  | "Train/Subway" => some (41/1000 : ℚ)
  | "Bicycle" => some 0
  | "Walking" => some 0
  | "Motorcycle" => some (103/1000 : ℚ)
  | "Short Flight" => some 500
  | "Medium Flight" => some 1500
  | "Long Flight" => some 3000
  | "Electricity" => some (5/10 : ℚ)
  | "Natural Gas" => some (2 : ℚ)
  | "Oil" => some (27/10 : ℚ)
  | "Electric Heating" => some (5/10 : ℚ)
  | "Heat Pump" => some (25/100 : ℚ)
  | "Wood" => some (15/10 : ℚ)
  | "Coal" => some (288/100 : ℚ)
  | "Heavy Meat Eater" => some (719/100 : ℚ)
  | "Regular Meat Eater" => some (563/100 : ℚ)
  | "Low Meat Eater" => some (467/100 : ℚ)
  | "Pescatarian" => some (391/100 : ℚ)
  | "Vegetarian" => some (381/100 : ℚ)
  | "Vegan" => some (289/100 : ℚ)
  | "Electronics" => some 100
  | "Waste" => some (5/10 : ℚ)
  | _ => none

/-- The nested dictionary `emission_factors["Clothing Spending"]`
(src/ETE-2.py lines 178-184). -/
def clothing_table : String → Option ℚ
  | "Very Low" => some (5/10 : ℚ)
  | "Low" => some (75/100 : ℚ)
  | "Average" => some (1 : ℚ)
  | "High" => some (15/10 : ℚ)
  | "Very High" => some (2 : ℚ)
  | _ => none

/-- The nested dictionary `emission_factors["Zero Waste Efforts"]`
(src/ETE-2.py lines 191-197). -/
def zero_waste_table : String → Option ℚ
  | "None" => some (1 : ℚ)
  | "Minimal" => some (9/10 : ℚ)
  | "Moderate" => some (7/10 : ℚ)
  | "Significant" => some (5/10 : ℚ)
  | "Zero-waste lifestyle" => some (2/10 : ℚ)
  | _ => none

/-- The nine options of the transport-mode selectbox (src/ETE-2.py
lines 46-50). -/
def transportModes : List String :=
  ["Car (Gasoline)", "Car (Diesel)", "Car (Electric)", "Car (Hybrid)",
   "Public Bus", "Train/Subway", "Bicycle", "Walking", "Motorcycle"]

/-- The six options of the heating-type selectbox (src/ETE-2.py
lines 75-78). -/
def heatingTypes : List String :=
  ["Natural Gas", "Oil", "Electric", "Heat Pump", "Wood", "Coal"]

/-- The six options of the diet-type selectbox (src/ETE-2.py lines 91-94). -/
def dietTypes : List String :=
  ["Heavy Meat Eater", "Regular Meat Eater", "Low Meat Eater",
   "Pescatarian", "Vegetarian", "Vegan"]

/-- The five options of the clothing-spending slider (src/ETE-2.py
lines 110-113). -/
def clothingTiers : List String :=
  ["Very Low", "Low", "Average", "High", "Very High"]

/-- The five options of the packaging-effort slider (src/ETE-2.py
lines 137-140). -/
def zeroWasteTiers : List String :=
  ["None", "Minimal", "Moderate", "Significant", "Zero-waste lifestyle"]

/-- Bool test that `pre` is an initial segment of `s`, character by
character: a transparent embedding of Python's `str.startswith` (the
built-in `String.startsWith` is compiled code the kernel cannot
evaluate). -/
def charListStart : List Char → List Char → Bool
  | _, [] => true
  | [], _ :: _ => false
  | c :: cs, d :: ds => c == d && charListStart cs ds

/-- Python `s.startswith(pre)` over Lean strings. -/
def strStartsWith (s pre : String) : Bool := charListStart s.data pre.data

/-- Daily-commute part of the transport estimator (src/ETE-2.py
lines 206-217).  For `Car (Electric)` the factor multiplies
`(daily_distance * fuel_efficiency) / 100`; for the other car modes the
source computes `liters_per_day` but then multiplies the raw
`daily_distance` by the factor, leaving the entered fuel efficiency
unused; non-car modes also multiply the raw distance. -/
def commute_emissions (p : Profile) : Option ℚ :=
  if strStartsWith p.transport_mode ("Car") then
    if p.transport_mode = "Car (Electric)" then
      (emission_factors p.transport_mode).map
        (fun f => (p.daily_distance * p.fuel_efficiency) / 100 * f * 365)
    else
      (emission_factors p.transport_mode).map
        (fun f => p.daily_distance * f * 365)
  else
    (emission_factors p.transport_mode).map
      (fun f => p.daily_distance * f * 365)

/-- Transport estimator: commute part plus the three flight contributions
(src/ETE-2.py lines 204-222). -/
def transport_emissions (p : Profile) : Option ℚ := do
  let commute ← commute_emissions p
  let fs ← emission_factors ("Short Flight")
  let fm ← emission_factors ("Medium Flight")
  let fl ← emission_factors ("Long Flight")
  return commute + (p.flight_short : ℚ) * fs + (p.flight_medium : ℚ) * fm
    + (p.flight_long : ℚ) * fl

/-- The heating factor selected on src/ETE-2.py line 231: the heating type
`Electric` is special-cased to the `Electric Heating` entry; every other
heating type is looked up directly in the flat dictionary. -/
def heating_factor (p : Profile) : Option ℚ :=
  if p.heating_type = "Electric" then emission_factors ("Electric Heating")
  else emission_factors p.heating_type

/-- Home-energy estimator (src/ETE-2.py lines 224-237): electricity with
renewable adjustment (monthly × 12), heating (monthly × 12), and, when AC
is enabled, one kWh per AC hour over 365 days with the same renewable
adjustment. -/
def energy_emissions (p : Profile) : Option ℚ := do
  let elec ← emission_factors ("Electricity")
  let hf ← heating_factor p
  let electricity := p.electricity_kwh * elec * (1 - p.renewable_percentage / 100) * 12
  let heating := p.heating_usage * hf * 12
  let ac := if p.has_ac
    then p.ac_hours * 365 * elec * (1 - p.renewable_percentage / 100)
    else 0
  return electricity + heating + ac

/-- Diet estimator (src/ETE-2.py lines 239-248): per-diet-type daily
factor × 365, multiplied by the four percentage modifiers. -/
def diet_emissions (p : Profile) : Option ℚ := do
  let f ← emission_factors p.diet_type
  let base := f * 365
  let local_modifier := 1 - p.local_food / 200
  let organic_modifier := 1 - p.organic_food / 250
  let waste_modifier := 1 + p.food_waste / 100
  let processed_modifier := 1 + p.processed_food / 200
  return base * (local_modifier * organic_modifier * waste_modifier * processed_modifier)

/-- Consumption estimator (src/ETE-2.py lines 250-264): clothing-tier
multiplier × 500 plus electronics, times the recycling and second-hand
modifiers. -/
def consumption_emissions (p : Profile) : Option ℚ := do
  let cf ← clothing_table p.clothing_spending
  let ef ← emission_factors ("Electronics")
  let base := cf * 500 + (p.electronics_yearly : ℚ) * ef
  let recycling_modifier := 1 - (p.recycled_items.card : ℚ) * (5/100 : ℚ)
  let secondhand_modifier := 1 - p.second_hand / 200
  return base * (recycling_modifier * secondhand_modifier)

/-- Waste estimator (src/ETE-2.py lines 266-274): weekly kg × factor × 52,
×0.8 when composting, ×(1 − recycling/200), × packaging-effort tier
multiplier. -/
def waste_emissions (p : Profile) : Option ℚ := do
  let wf ← emission_factors ("Waste")
  let zf ← zero_waste_table p.zero_waste
  let base := p.waste_weekly * wf * 52
  let afterCompost := if p.composting then base * (8/10 : ℚ) else base
  return afterCompost * (1 - p.recycling_rate / 200) * zf

/-- The five category values plus the total, as appended to the session
history (src/ETE-2.py lines 277, 282-287). -/
structure Breakdown where
  transport : ℚ
  home_energy : ℚ
  diet : ℚ
  consumption : ℚ
  waste : ℚ
  total : ℚ
deriving DecidableEq

/-- One full run of the calculation block (src/ETE-2.py lines 202-277):
the five estimators in source order, then `total = sum` (line 277).  A
`none` is a run aborted by an uncaught `KeyError`/`TypeError` before any
history mutation. -/
def compute_breakdown (p : Profile) : Option Breakdown := do
  let t ← transport_emissions p
  let e ← energy_emissions p
  let d ← diet_emissions p
  let c ← consumption_emissions p
  let w ← waste_emissions p
  return { transport := t, home_energy := e, diet := d, consumption := c,
           waste := w, total := t + e + d + c + w }

/-- The session history `st.session_state.emissions_data` (src/ETE-2.py
lines 26-34): seven parallel append-only lists. -/
structure History where
  date : List String
  transport : List ℚ
  home_energy : List ℚ
  diet : List ℚ
  consumption : List ℚ
  waste : List ℚ
  total : List ℚ
deriving DecidableEq

/-- The seven `.append(...)` calls of src/ETE-2.py lines 281-287. -/
def appendRecord (h : History) (today : String) (b : Breakdown) : History :=
  { date := h.date ++ [today],
    transport := h.transport ++ [b.transport],
    home_energy := h.home_energy ++ [b.home_energy],
    diet := h.diet ++ [b.diet],
    consumption := h.consumption ++ [b.consumption],
    waste := h.waste ++ [b.waste],
    total := h.total ++ [b.total] }

/-- The whole button handler (src/ETE-2.py lines 202-287): compute the
breakdown, then append one record to the history.  When the computation
aborts (unknown dictionary key), no record is appended. -/
def calcAndAppend (p : Profile) (today : String) (h : History) :
    Option (Breakdown × History) :=
  (compute_breakdown p).map (fun b => (b, appendRecord h today b))

/-- Possible outcome of a machine float division in the source.  The
subject and reference values are exact here (ℚ); a zero denominator makes
the numpy/pandas division produce an IEEE infinity or NaN — a displayed
value, not a raised error — embedded as `nonfinite`. -/
inductive FloatDivOutcome
  | value (q : ℚ)
  | nonfinite
deriving DecidableEq

/-- The percentage-difference computation of src/ETE-2.py lines 327 and
473: `((value - reference) / reference) * 100`, performed with no zero
guard; at `reference = 0` the numpy float division yields a nonfinite
value. -/
def percentage_diff (value reference : ℚ) : FloatDivOutcome :=
  if reference = 0 then FloatDivOutcome.nonfinite
  else FloatDivOutcome.value ((value - reference) / reference * 100)

/-- Modelled from the spec (section 4.3), for comparison with the source
embedding `percentage_diff`: the spec's `compare` fails with a
DivisionUndefined condition (here `none`) when the reference is zero. -/
def compare_spec (value reference : ℚ) : Option ℚ :=
  if reference = 0 then none
  else some ((value - reference) / reference * 100)

/-- One row of the per-country reference dataset (src/ETE-2.py
lines 430-441): country, derived year, region, metric tons per capita,
kilotons of CO2. -/
structure RefRecord where
  country : String
  year : ℤ
  region : String
  perCapita : ℚ
  kilotons : ℚ
deriving DecidableEq

/-- `country_data` (src/ETE-2.py line 457): the rows for one country,
sorted by year descending (`sort_values('Year', ascending=False)`). -/
def country_data (ds : List RefRecord) (c : String) : List RefRecord :=
  List.insertionSort (fun a b => b.year ≤ a.year)
    (ds.filter (fun r => r.country == c))

/-- `latest_emissions_per_capita` (src/ETE-2.py lines 460-461): the first
row of the year-descending sort, its per-capita value multiplied by 1000
to convert metric tons to kg; `none` when the country has no rows (the
source guards this case with `if not country_data.empty`). -/
def latest_emissions_per_capita (ds : List RefRecord) (c : String) : Option ℚ :=
  (country_data ds c).head?.map (fun r => r.perCapita * 1000)

/-- The per-country comparison (src/ETE-2.py lines 473-474): the user's
total against the converted per-capita reference. -/
def country_comparison (ds : List RefRecord) (c : String) (total : ℚ) :
    Option FloatDivOutcome :=
  (latest_emissions_per_capita ds c).map (fun ref => percentage_diff total ref)

/-- `global_data` (src/ETE-2.py line 522): the rows of one year sorted by
per-capita value descending. -/
def global_data (ds : List RefRecord) (year : ℤ) : List RefRecord :=
  List.insertionSort (fun a b => b.perCapita ≤ a.perCapita)
    (ds.filter (fun r => r.year == year))

/-- The 1-based ranking (src/ETE-2.py lines 523-524): after
`reset_index`, the index is shifted to start at 1, pairing rank `i+1`
with the row at position `i` of the sorted frame. -/
def global_ranking (ds : List RefRecord) (year : ℤ) : List (ℕ × RefRecord) :=
  (global_data ds year).enum.map (fun p => (p.1 + 1, p.2))

/-- `country_rank` (src/ETE-2.py line 527): the 1-based position of the
first row of the sorted frame whose country matches; `none` when the
country is absent from that year (`.index[0]` would raise). -/
def country_rank (ds : List RefRecord) (year : ℤ) (c : String) : Option ℕ :=
  ((global_data ds year).findIdx? (fun r => r.country == c)).map (fun i => i + 1)

/-- The per-region, per-year kilotons total behind
`yearly_region_data` / `region_growth` (src/ETE-2.py lines 551, 577):
sum of `Kilotons of Co2` over the rows of that region and year. -/
def total_by_region_year (ds : List RefRecord) (region : String) (year : ℤ) : ℚ :=
  ((ds.filter (fun r => r.region == region && r.year == year)).map
    (fun r => r.kilotons)).sum

/-- `region_growth_pct` for one region (src/ETE-2.py line 578):
`(latest_total / earliest_total - 1) * 100`, computed by unguarded pandas
float division; a zero earliest-year total makes the division yield a
nonfinite float (inf or NaN), which the source then displays and feeds to
`idxmax`/`idxmin` — no error is raised. -/
def region_growth_pct (ds : List RefRecord) (region : String) (y0 y1 : ℤ) :
    FloatDivOutcome :=
  if total_by_region_year ds region y0 = 0 then FloatDivOutcome.nonfinite
  else FloatDivOutcome.value
    ((total_by_region_year ds region y1 / total_by_region_year ds region y0 - 1) * 100)

/-- Modelled from the spec (section 4.4), for comparison with the source
embedding `region_growth_pct`: the spec's `regionalGrowth` fails with
DivisionUndefined (here `none`) when a region's earliest-year total is
zero. -/
def regional_growth_spec (ds : List RefRecord) (region : String) (y0 y1 : ℤ) :
    Option ℚ :=
  if total_by_region_year ds region y0 = 0 then none
  else some
    ((total_by_region_year ds region y1 / total_by_region_year ds region y0 - 1) * 100)

/-- The Python list `categories` (src/ETE-2.py line 356), fixing the
tie-breaking priority order. -/
def categoriesList : List Category :=
  [Category.transport, Category.home_energy, Category.diet,
   Category.consumption, Category.waste]

/-- The five category values of a breakdown in the order of
`emissions = [st.session_state.emissions_data[cat][-1] for cat in categories]`
(src/ETE-2.py lines 357-359); the source reads them back from the last
history record, which `appendRecord` makes equal to the breakdown's own
fields. -/
def emissionsList (b : Breakdown) : List ℚ :=
  [b.transport, b.home_energy, b.diet, b.consumption, b.waste]

/-- The value of a breakdown at a category. -/
def bval (b : Breakdown) : Category → ℚ
  | Category.transport => b.transport
  | Category.home_energy => b.home_energy
  | Category.diet => b.diet
  | Category.consumption => b.consumption
  | Category.waste => b.waste

/-- The position of a category in the fixed priority order. -/
def priorityIdx : Category → ℕ
  | Category.transport => 0
  | Category.home_energy => 1
  | Category.diet => 2
  | Category.consumption => 3
  | Category.waste => 4

/-- Python `max(emissions)` over the five-element list (src/ETE-2.py
line 360). -/
def maxEmissions (b : Breakdown) : ℚ :=
  max b.transport (max b.home_energy (max b.diet (max b.consumption b.waste)))

/-- `emissions.index(max(emissions))` (src/ETE-2.py line 360): the first
position holding the maximum. -/
def highest_category_index (b : Breakdown) : ℕ :=
  (emissionsList b).findIdx (fun x => x == maxEmissions b)

/-- `categories[highest_category_index]` (src/ETE-2.py line 361). -/
def highest_category (b : Breakdown) : Category :=
  categoriesList.getD (highest_category_index b) Category.transport

/-- The static advice table (src/ETE-2.py lines 364-395), four entries
per category. -/
def recommendations : Category → List String
  | Category.transport =>
    ["Consider carpooling or using public transportation more frequently",
     "If possible, work from home a few days a week to reduce commute emissions",
     "For short distances, consider walking or cycling instead of driving",
     "If you\x27re in the market for a new vehicle, consider electric or hybrid options"]
  | Category.home_energy =>
    ["Switch to LED light bulbs throughout your home",
     "Improve home insulation to reduce heating/cooling needs",
     "Consider investing in renewable energy sources like solar panels",
     "Unplug electronics when not in use to avoid phantom energy usage"]
  | Category.diet =>
    ["Try to incorporate more plant-based meals into your diet",
     "Buy more locally produced and seasonal foods",
     "Plan meals to reduce food waste",
     "Compost food scraps instead of sending them to landfill"]
  | Category.consumption =>
    ["Before buying new items, consider if you can repair, borrow, or buy second-hand",
     "Invest in quality items that will last longer, even if they cost more initially",
     "Recycle as much as possible and properly dispose of electronics",
     "Support companies with sustainable practices and certifications"]
  | Category.waste =>
    ["Start composting food scraps and yard waste",
     "Switch to reusable alternatives for common disposable items",
     "Buy products with minimal or recyclable packaging",
     "Participate in local recycling programs and ensure you\x27re recycling correctly"]

/-- Validity of a profile, following the spec's data-model invariant: all
percentages in [0, 100], all quantities non-negative, enum fields drawn
from the fixed option lists of the form (counts are ℕ and the recycled
set is a subset of the five materials by construction). -/
def ValidProfile (p : Profile) : Prop :=
  p.transport_mode ∈ transportModes ∧
  0 ≤ p.daily_distance ∧
  0 ≤ p.fuel_efficiency ∧
  0 ≤ p.electricity_kwh ∧
  0 ≤ p.renewable_percentage ∧ p.renewable_percentage ≤ 100 ∧
  p.heating_type ∈ heatingTypes ∧
  0 ≤ p.heating_usage ∧
  0 ≤ p.ac_hours ∧
  p.diet_type ∈ dietTypes ∧
  0 ≤ p.local_food ∧ p.local_food ≤ 100 ∧
  0 ≤ p.organic_food ∧ p.organic_food ≤ 100 ∧
  0 ≤ p.food_waste ∧ p.food_waste ≤ 100 ∧
  0 ≤ p.processed_food ∧ p.processed_food ≤ 100 ∧
  p.clothing_spending ∈ clothingTiers ∧
  0 ≤ p.second_hand ∧ p.second_hand ≤ 100 ∧
  0 ≤ p.waste_weekly ∧
  0 ≤ p.recycling_rate ∧ p.recycling_rate ≤ 100 ∧
  p.zero_waste ∈ zeroWasteTiers

/-- A concrete empty session history (src/ETE-2.py lines 26-34). -/
def emptyHistory : History :=
  { date := [], transport := [], home_energy := [], diet := [],
    consumption := [], waste := [], total := [] }


/-- Each of the nine valid transport modes has a non-negative per-km
factor in the flat dictionary. -/
lemma factor_of_transport (m : String) (hm : m ∈ transportModes) :
    ∃ f, emission_factors m = some f ∧ 0 ≤ f := by
  simp only [transportModes, List.mem_cons, List.not_mem_nil, or_false] at hm
  rcases hm with rfl | rfl | rfl | rfl | rfl | rfl | rfl | rfl | rfl
  · exact ⟨192/1000, rfl, by norm_num⟩
  · exact ⟨171/1000, rfl, by norm_num⟩
  · exact ⟨53/1000, rfl, by norm_num⟩
  · exact ⟨106/1000, rfl, by norm_num⟩
  · exact ⟨105/1000, rfl, by norm_num⟩
  · exact ⟨41/1000, rfl, by norm_num⟩
  · exact ⟨0, rfl, le_refl 0⟩
  · exact ⟨0, rfl, le_refl 0⟩
  · exact ⟨103/1000, rfl, by norm_num⟩

/-- Each of the six valid heating types yields a non-negative heating
factor through the `Electric` special case of src/ETE-2.py line 231. -/
lemma factor_of_heating (m : String) (hm : m ∈ heatingTypes) :
    ∃ f, (if m = "Electric" then emission_factors ("Electric Heating")
          else emission_factors m) = some f ∧ 0 ≤ f := by
  simp only [heatingTypes, List.mem_cons, List.not_mem_nil, or_false] at hm
  rcases hm with rfl | rfl | rfl | rfl | rfl | rfl
  · exact ⟨2, rfl, by norm_num⟩
  · exact ⟨27/10, rfl, by norm_num⟩
  · exact ⟨5/10, rfl, by norm_num⟩
  · exact ⟨25/100, rfl, by norm_num⟩
  · exact ⟨15/10, rfl, by norm_num⟩
  · exact ⟨288/100, rfl, by norm_num⟩

/-- Each of the six valid diet types has a non-negative daily factor. -/
lemma factor_of_diet (m : String) (hm : m ∈ dietTypes) :
    ∃ f, emission_factors m = some f ∧ 0 ≤ f := by
  simp only [dietTypes, List.mem_cons, List.not_mem_nil, or_false] at hm
  rcases hm with rfl | rfl | rfl | rfl | rfl | rfl
  · exact ⟨719/100, rfl, by norm_num⟩
  · exact ⟨563/100, rfl, by norm_num⟩
  · exact ⟨467/100, rfl, by norm_num⟩
  · exact ⟨391/100, rfl, by norm_num⟩
  · exact ⟨381/100, rfl, by norm_num⟩
  · exact ⟨289/100, rfl, by norm_num⟩

/-- Each of the five clothing tiers has a non-negative multiplier. -/
lemma factor_of_clothing (m : String) (hm : m ∈ clothingTiers) :
    ∃ f, clothing_table m = some f ∧ 0 ≤ f := by
  simp only [clothingTiers, List.mem_cons, List.not_mem_nil, or_false] at hm
  rcases hm with rfl | rfl | rfl | rfl | rfl
  · exact ⟨5/10, rfl, by norm_num⟩
  · exact ⟨75/100, rfl, by norm_num⟩
  · exact ⟨1, rfl, by norm_num⟩
  · exact ⟨15/10, rfl, by norm_num⟩
  · exact ⟨2, rfl, by norm_num⟩

/-- Each of the five packaging-effort tiers has a non-negative
multiplier. -/
lemma factor_of_zero_waste (m : String) (hm : m ∈ zeroWasteTiers) :
    ∃ f, zero_waste_table m = some f ∧ 0 ≤ f := by
  simp only [zeroWasteTiers, List.mem_cons, List.not_mem_nil, or_false] at hm
  rcases hm with rfl | rfl | rfl | rfl | rfl
  · exact ⟨1, rfl, by norm_num⟩
  · exact ⟨9/10, rfl, by norm_num⟩
  · exact ⟨7/10, rfl, by norm_num⟩
  · exact ⟨5/10, rfl, by norm_num⟩
  · exact ⟨2/10, rfl, by norm_num⟩

/-- A percentage bounded by 100 gives a non-negative `1 - pct / d`
modifier for any denominator d ≥ 100. -/
lemma modifier_nonneg {pct d : ℚ} (h1 : pct ≤ 100) (hd : 100 ≤ d) (hd0 : 0 < d) :
    0 ≤ 1 - pct / d := by
  have : pct / d ≤ 1 := by
    rw [div_le_one hd0]
    linarith
  linarith

/-- On a valid profile the transport estimator succeeds and is
non-negative. -/
lemma transport_emissions_spec (p : Profile) (hm : p.transport_mode ∈ transportModes)
    (hd : 0 ≤ p.daily_distance) (he : 0 ≤ p.fuel_efficiency) :
    ∃ t, transport_emissions p = some t ∧ 0 ≤ t := by
  obtain ⟨f, hf, hf0⟩ := factor_of_transport _ hm
  have h365 : (0 : ℚ) ≤ 365 := by norm_num
  have hcom : ∃ u, commute_emissions p = some u ∧ 0 ≤ u := by
    unfold commute_emissions
    rw [hf]
    split
    · split
      · exact ⟨_, rfl, mul_nonneg (mul_nonneg
          (div_nonneg (mul_nonneg hd he) (by norm_num)) hf0) h365⟩
      · exact ⟨_, rfl, mul_nonneg (mul_nonneg hd hf0) h365⟩
    · exact ⟨_, rfl, mul_nonneg (mul_nonneg hd hf0) h365⟩
  obtain ⟨u, hu, hu0⟩ := hcom
  have hfs : emission_factors ("Short Flight") = some 500 := rfl
  have hfm : emission_factors ("Medium Flight") = some 1500 := rfl
  have hfl : emission_factors ("Long Flight") = some 3000 := rfl
  have heq : transport_emissions p = some
      (u + (p.flight_short : ℚ) * 500 + (p.flight_medium : ℚ) * 1500
        + (p.flight_long : ℚ) * 3000) := by
    unfold transport_emissions
    rw [hu, hfs, hfm, hfl]
    rfl
  refine ⟨_, heq, ?_⟩
  have hs : (0 : ℚ) ≤ (p.flight_short : ℚ) * 500 :=
    mul_nonneg (Nat.cast_nonneg _) (by norm_num)
  have hmm : (0 : ℚ) ≤ (p.flight_medium : ℚ) * 1500 :=
    mul_nonneg (Nat.cast_nonneg _) (by norm_num)
  have hl : (0 : ℚ) ≤ (p.flight_long : ℚ) * 3000 :=
    mul_nonneg (Nat.cast_nonneg _) (by norm_num)
  linarith

/-- On a valid profile the home-energy estimator succeeds and is
non-negative. -/
lemma energy_emissions_spec (p : Profile) (hm : p.heating_type ∈ heatingTypes)
    (hk : 0 ≤ p.electricity_kwh) (hr1 : p.renewable_percentage ≤ 100)
    (hu : 0 ≤ p.heating_usage) (ha : 0 ≤ p.ac_hours) :
    ∃ e, energy_emissions p = some e ∧ 0 ≤ e := by
  obtain ⟨f, hf, hf0⟩ := factor_of_heating p.heating_type hm
  have hf' : heating_factor p = some f := hf
  have hmod : 0 ≤ 1 - p.renewable_percentage / 100 :=
    modifier_nonneg hr1 (le_refl _) (by norm_num)
  have helec : emission_factors ("Electricity") = some (5/10 : ℚ) := rfl
  have heq : energy_emissions p = some
      (p.electricity_kwh * (5/10 : ℚ) * (1 - p.renewable_percentage / 100) * 12
        + p.heating_usage * f * 12
        + (if p.has_ac
            then p.ac_hours * 365 * (5/10 : ℚ) * (1 - p.renewable_percentage / 100)
            else 0)) := by
    unfold energy_emissions
    rw [helec, hf']
    rfl
  refine ⟨_, heq, ?_⟩
  have h1 : (0 : ℚ) ≤ p.electricity_kwh * (5/10 : ℚ) * (1 - p.renewable_percentage / 100) * 12 :=
    mul_nonneg (mul_nonneg (mul_nonneg hk (by norm_num)) hmod) (by norm_num)
  have h2 : (0 : ℚ) ≤ p.heating_usage * f * 12 :=
    mul_nonneg (mul_nonneg hu hf0) (by norm_num)
  have h3 : (0 : ℚ) ≤ if p.has_ac
      then p.ac_hours * 365 * (5/10 : ℚ) * (1 - p.renewable_percentage / 100)
      else 0 := by
    cases hac : p.has_ac
    · rw [if_neg (by simp)]
    · rw [if_pos rfl]
      exact mul_nonneg (mul_nonneg (mul_nonneg ha (by norm_num)) (by norm_num)) hmod
  linarith

/-- On a valid profile the diet estimator succeeds and is non-negative. -/
lemma diet_emissions_spec (p : Profile) (hm : p.diet_type ∈ dietTypes)
    (hl : p.local_food ≤ 100) (ho : p.organic_food ≤ 100)
    (hw : 0 ≤ p.food_waste) (hp : 0 ≤ p.processed_food) :
    ∃ d, diet_emissions p = some d ∧ 0 ≤ d := by
  obtain ⟨f, hf, hf0⟩ := factor_of_diet _ hm
  have hlm : 0 ≤ 1 - p.local_food / 200 := modifier_nonneg hl (by norm_num) (by norm_num)
  have hom : 0 ≤ 1 - p.organic_food / 250 := modifier_nonneg ho (by norm_num) (by norm_num)
  have hwm : 0 ≤ 1 + p.food_waste / 100 := by positivity
  have hpm : 0 ≤ 1 + p.processed_food / 200 := by positivity
  have heq : diet_emissions p = some
      (f * 365 * ((1 - p.local_food / 200) * (1 - p.organic_food / 250)
        * (1 + p.food_waste / 100) * (1 + p.processed_food / 200))) := by
    unfold diet_emissions
    rw [hf]
    rfl
  refine ⟨_, heq, ?_⟩
  exact mul_nonneg (mul_nonneg hf0 (by norm_num))
    (mul_nonneg (mul_nonneg (mul_nonneg hlm hom) hwm) hpm)

/-- On a valid profile the consumption estimator succeeds and is
non-negative. -/
lemma consumption_emissions_spec (p : Profile)
    (hm : p.clothing_spending ∈ clothingTiers)
    (hs1 : p.second_hand ≤ 100) :
    ∃ c, consumption_emissions p = some c ∧ 0 ≤ c := by
  obtain ⟨f, hf, hf0⟩ := factor_of_clothing _ hm
  have hef : emission_factors ("Electronics") = some 100 := rfl
  have hcard : ((p.recycled_items.card : ℚ)) ≤ 5 := by
    have h1 : p.recycled_items.card ≤ 5 := by
      have h2 := Finset.card_le_univ p.recycled_items
      simpa using h2
    exact_mod_cast h1
  have hrm : 0 ≤ 1 - (p.recycled_items.card : ℚ) * (5/100 : ℚ) := by
    have h2 : (p.recycled_items.card : ℚ) * (5/100 : ℚ) ≤ 5 * (5/100 : ℚ) :=
      mul_le_mul_of_nonneg_right hcard (by norm_num)
    nlinarith
  have hsm : 0 ≤ 1 - p.second_hand / 200 := modifier_nonneg hs1 (by norm_num) (by norm_num)
  have heq : consumption_emissions p = some
      ((f * 500 + (p.electronics_yearly : ℚ) * 100)
        * ((1 - (p.recycled_items.card : ℚ) * (5/100 : ℚ)) * (1 - p.second_hand / 200))) := by
    unfold consumption_emissions
    rw [hf, hef]
    rfl
  refine ⟨_, heq, ?_⟩
  have hbase : (0 : ℚ) ≤ f * 500 + (p.electronics_yearly : ℚ) * 100 := by
    have h3 := mul_nonneg hf0 (by norm_num : (0:ℚ) ≤ 500)
    have h4 := mul_nonneg (Nat.cast_nonneg p.electronics_yearly) (by norm_num : (0:ℚ) ≤ 100)
    linarith
  exact mul_nonneg hbase (mul_nonneg hrm hsm)

/-- On a valid profile the waste estimator succeeds and is
non-negative. -/
lemma waste_emissions_spec (p : Profile) (hz : p.zero_waste ∈ zeroWasteTiers)
    (hw : 0 ≤ p.waste_weekly) (hr1 : p.recycling_rate ≤ 100) :
    ∃ w, waste_emissions p = some w ∧ 0 ≤ w := by
  obtain ⟨f, hf, hf0⟩ := factor_of_zero_waste _ hz
  have hwf : emission_factors ("Waste") = some (5/10 : ℚ) := rfl
  have hrm : 0 ≤ 1 - p.recycling_rate / 200 := modifier_nonneg hr1 (by norm_num) (by norm_num)
  have hbase : (0 : ℚ) ≤ p.waste_weekly * (5/10 : ℚ) * 52 :=
    mul_nonneg (mul_nonneg hw (by norm_num)) (by norm_num)
  have heq : waste_emissions p = some
      ((if p.composting
          then p.waste_weekly * (5/10 : ℚ) * 52 * (8/10 : ℚ)
          else p.waste_weekly * (5/10 : ℚ) * 52)
        * (1 - p.recycling_rate / 200) * f) := by
    unfold waste_emissions
    rw [hwf, hf]
    rfl
  refine ⟨_, heq, ?_⟩
  have hcomp : (0 : ℚ) ≤ if p.composting
      then p.waste_weekly * (5/10 : ℚ) * 52 * (8/10 : ℚ)
      else p.waste_weekly * (5/10 : ℚ) * 52 := by
    cases hc : p.composting
    · rw [if_neg (by simp)]
      exact hbase
    · rw [if_pos rfl]
      exact mul_nonneg hbase (by norm_num)
  exact mul_nonneg (mul_nonneg hcomp hrm) hf0

/-- Estimators on a valid profile: all five succeed, are non-negative, and
the breakdown records their exact sum as the total (src/ETE-2.py
line 277). -/
lemma compute_breakdown_of_valid (p : Profile) (hv : ValidProfile p) :
    ∃ t e d c w : ℚ, transport_emissions p = some t ∧ energy_emissions p = some e ∧
      diet_emissions p = some d ∧ consumption_emissions p = some c ∧
      waste_emissions p = some w ∧ 0 ≤ t ∧ 0 ≤ e ∧ 0 ≤ d ∧ 0 ≤ c ∧ 0 ≤ w ∧
      compute_breakdown p = some ⟨t, e, d, c, w, t + e + d + c + w⟩ := by
  obtain ⟨h1, h2, h3, h4, h5, h6, h7, h8, h9, h10, h11, h12, h13, h14, h15, h16,
    h17, h18, h19, h20, h21, h22, h23, h24, h25⟩ := hv
  obtain ⟨t, ht, ht0⟩ := transport_emissions_spec p h1 h2 h3
  obtain ⟨e, he, he0⟩ := energy_emissions_spec p h7 h4 h6 h8 h9
  obtain ⟨d, hd, hd0⟩ := diet_emissions_spec p h10 h12 h14 h15 h17
  obtain ⟨c, hc, hc0⟩ := consumption_emissions_spec p h19 h21
  obtain ⟨w, hw, hw0⟩ := waste_emissions_spec p h25 h22 h24
  refine ⟨t, e, d, c, w, ht, he, hd, hc, hw, ht0, he0, hd0, hc0, hw0, ?_⟩
  unfold compute_breakdown
  rw [ht, he, hd, hc, hw]
  rfl

/-- A concrete valid profile (the defaults of the form in src/ETE-2.py). -/
def sampleProfile : Profile :=
  { transport_mode := "Car (Gasoline)", daily_distance := 10, fuel_efficiency := 8,
    flight_short := 0, flight_medium := 0, flight_long := 0,
    electricity_kwh := 300, renewable_percentage := 20,
    heating_type := "Natural Gas", heating_usage := 100,
    has_ac := false, ac_hours := 0,
    diet_type := "Regular Meat Eater", local_food := 20, organic_food := 20,
    food_waste := 15, processed_food := 30,
    clothing_spending := "Average", electronics_yearly := 1,
    recycled_items := ∅, second_hand := 10,
    waste_weekly := 10, composting := false, recycling_rate := 30,
    zero_waste := "None" }

/-- The sample profile satisfies the validity invariant. -/
lemma sampleProfile_valid : ValidProfile sampleProfile :=
  ⟨by decide, by norm_num [sampleProfile], by norm_num [sampleProfile],
   by norm_num [sampleProfile], by norm_num [sampleProfile], by norm_num [sampleProfile],
   by decide, by norm_num [sampleProfile], by norm_num [sampleProfile],
   by decide, by norm_num [sampleProfile], by norm_num [sampleProfile],
   by norm_num [sampleProfile], by norm_num [sampleProfile], by norm_num [sampleProfile],
   by norm_num [sampleProfile], by norm_num [sampleProfile], by norm_num [sampleProfile],
   by decide, by norm_num [sampleProfile], by norm_num [sampleProfile],
   by norm_num [sampleProfile], by norm_num [sampleProfile], by norm_num [sampleProfile],
   by decide⟩

/-- C1: the transport estimator is asymmetric in its use of fuel
efficiency: for `Car (Electric)` the commute emissions are
(daily_distance × fuel_efficiency / 100) × per-km factor × 365; for the
other car modes (Gasoline, Diesel, Hybrid) they are
daily_distance × per-km factor × 365, a formula in which the entered fuel
efficiency does not occur; for the non-car modes they are also
daily_distance × per-km factor × 365. -/
theorem C1_transport_asymmetry :
    (∀ p : Profile, p.transport_mode = "Car (Electric)" →
      commute_emissions p
        = some ((p.daily_distance * p.fuel_efficiency) / 100 * (53/1000 : ℚ) * 365)) ∧
    (∀ p : Profile,
      p.transport_mode ∈ (["Car (Gasoline)", "Car (Diesel)", "Car (Hybrid)"] : List String) →
      ∃ f, emission_factors p.transport_mode = some f ∧
        commute_emissions p = some (p.daily_distance * f * 365)) ∧
    (∀ p : Profile,
      p.transport_mode
          ∈ (["Public Bus", "Train/Subway", "Bicycle", "Walking", "Motorcycle"] : List String) →
      ∃ f, emission_factors p.transport_mode = some f ∧
        commute_emissions p = some (p.daily_distance * f * 365)) := by
  refine ⟨?_, ?_, ?_⟩
  · intro p hmode
    unfold commute_emissions
    rw [hmode]
    rfl
  · intro p hmode
    simp only [List.mem_cons, List.not_mem_nil, or_false] at hmode
    rcases hmode with h | h | h
    · exact ⟨192/1000, by rw [h]; rfl, by unfold commute_emissions; rw [h]; rfl⟩
    · exact ⟨171/1000, by rw [h]; rfl, by unfold commute_emissions; rw [h]; rfl⟩
    · exact ⟨106/1000, by rw [h]; rfl, by unfold commute_emissions; rw [h]; rfl⟩
  · intro p hmode
    simp only [List.mem_cons, List.not_mem_nil, or_false] at hmode
    rcases hmode with h | h | h | h | h
    · exact ⟨105/1000, by rw [h]; rfl, by unfold commute_emissions; rw [h]; rfl⟩
    · exact ⟨41/1000, by rw [h]; rfl, by unfold commute_emissions; rw [h]; rfl⟩
    · exact ⟨0, by rw [h]; rfl, by unfold commute_emissions; rw [h]; rfl⟩
    · exact ⟨0, by rw [h]; rfl, by unfold commute_emissions; rw [h]; rfl⟩
    · exact ⟨103/1000, by rw [h]; rfl, by unfold commute_emissions; rw [h]; rfl⟩

/-- Witness for C1 at concrete profiles: a gasoline-mode profile follows
the distance-only formula and an electric-mode profile the
efficiency-scaled formula. -/
theorem C1_transport_asymmetry_witness :
    (sampleProfile.transport_mode
        ∈ (["Car (Gasoline)", "Car (Diesel)", "Car (Hybrid)"] : List String)) ∧
    (∃ f, emission_factors sampleProfile.transport_mode = some f ∧
      commute_emissions sampleProfile = some (sampleProfile.daily_distance * f * 365)) :=
  ⟨by decide, (C1_transport_asymmetry.2.1) sampleProfile (by decide)⟩

/-- C2: on every valid profile each of the five category estimators
returns a value ≥ 0 and the computed total equals the sum of the five
category values within tolerance 1e-9 (in this exact-rational embedding
the difference is exactly 0). -/
theorem C2_estimators_nonneg_total_sum (p : Profile) (hv : ValidProfile p) :
    ∃ b : Breakdown, compute_breakdown p = some b ∧
      0 ≤ b.transport ∧ 0 ≤ b.home_energy ∧ 0 ≤ b.diet ∧
      0 ≤ b.consumption ∧ 0 ≤ b.waste ∧
      |b.total - (b.transport + b.home_energy + b.diet + b.consumption + b.waste)|
        ≤ 1 / 1000000000 := by
  obtain ⟨t, e, d, c, w, ht, he, hd, hc, hw, ht0, he0, hd0, hc0, hw0, hb⟩ :=
    compute_breakdown_of_valid p hv
  refine ⟨_, hb, ht0, he0, hd0, hc0, hw0, ?_⟩
  simp only [sub_self, abs_zero]
  norm_num

/-- Witness for C2 at the sample profile. -/
theorem C2_estimators_nonneg_total_sum_witness :
    ValidProfile sampleProfile ∧
    ∃ b : Breakdown, compute_breakdown sampleProfile = some b ∧
      0 ≤ b.transport ∧ 0 ≤ b.home_energy ∧ 0 ≤ b.diet ∧
      0 ≤ b.consumption ∧ 0 ≤ b.waste ∧
      |b.total - (b.transport + b.home_energy + b.diet + b.consumption + b.waste)|
        ≤ 1 / 1000000000 :=
  ⟨sampleProfile_valid, C2_estimators_nonneg_total_sum sampleProfile sampleProfile_valid⟩

/-- C9: on every profile with a valid heating type, the home-energy
estimator returns electricity_kwh × per-kWh factor × (1 − renewable
fraction) × 12, plus heating_units × heating factor × 12 where heating
type `Electric` selects the distinct `Electric Heating` table entry, plus
the AC term when AC is enabled. -/
theorem C9_home_energy_formula (p : Profile) (hh : p.heating_type ∈ heatingTypes) :
    ∃ hf, heating_factor p = some hf ∧
      (p.heating_type = "Electric" →
        heating_factor p = emission_factors ("Electric Heating")) ∧
      emission_factors ("Electricity") = some (5/10 : ℚ) ∧
      energy_emissions p = some
        (p.electricity_kwh * (5/10 : ℚ) * (1 - p.renewable_percentage / 100) * 12
          + p.heating_usage * hf * 12
          + (if p.has_ac
              then p.ac_hours * 365 * (5/10 : ℚ) * (1 - p.renewable_percentage / 100)
              else 0)) := by
  obtain ⟨f, hf, _⟩ := factor_of_heating p.heating_type hh
  have hf' : heating_factor p = some f := hf
  have helec : emission_factors ("Electricity") = some (5/10 : ℚ) := rfl
  refine ⟨f, hf', fun he => ?_, helec, ?_⟩
  · unfold heating_factor
    rw [if_pos he]
  · unfold energy_emissions
    rw [helec, hf']
    rfl

/-- Witness for C9 at the sample profile and at an electric-heating
variant of it. -/
theorem C9_home_energy_formula_witness :
    (sampleProfile.heating_type ∈ heatingTypes) ∧
    (∃ hf, heating_factor sampleProfile = some hf ∧
      (sampleProfile.heating_type = "Electric" →
        heating_factor sampleProfile = emission_factors ("Electric Heating")) ∧
      emission_factors ("Electricity") = some (5/10 : ℚ) ∧
      energy_emissions sampleProfile = some
        (sampleProfile.electricity_kwh * (5/10 : ℚ)
            * (1 - sampleProfile.renewable_percentage / 100) * 12
          + sampleProfile.heating_usage * hf * 12
          + (if sampleProfile.has_ac
              then sampleProfile.ac_hours * 365 * (5/10 : ℚ)
                * (1 - sampleProfile.renewable_percentage / 100)
              else 0))) :=
  ⟨by decide, C9_home_energy_formula sampleProfile (by decide)⟩

/-- C5: every successful calculation appends exactly one record to the
history, preserving all prior entries, and a second run on the identical
profile appends a second record with the identical breakdown, growing the
history by exactly two. -/
theorem C5_history_append_only (p : Profile) (d1 d2 : String) (h : History)
    (b1 : Breakdown) (h1 : History)
    (hc : calcAndAppend p d1 h = some (b1, h1)) :
    (h1.date = h.date ++ [d1] ∧
     h1.transport = h.transport ++ [b1.transport] ∧
     h1.home_energy = h.home_energy ++ [b1.home_energy] ∧
     h1.diet = h.diet ++ [b1.diet] ∧
     h1.consumption = h.consumption ++ [b1.consumption] ∧
     h1.waste = h.waste ++ [b1.waste] ∧
     h1.total = h.total ++ [b1.total] ∧
     h1.date.length = h.date.length + 1) ∧
    (∃ b2 h2, calcAndAppend p d2 h1 = some (b2, h2) ∧ b2 = b1 ∧
      h2.total = h.total ++ [b1.total, b1.total] ∧
      h2.total.length = h.total.length + 2) := by
  unfold calcAndAppend at hc
  cases hcb : compute_breakdown p with
  | none =>
      rw [hcb] at hc
      simp at hc
  | some b =>
      rw [hcb] at hc
      simp only [Option.map_some', Option.some.injEq, Prod.mk.injEq] at hc
      obtain ⟨hb1, hh1⟩ := hc
      subst hb1
      subst hh1
      refine ⟨⟨rfl, rfl, rfl, rfl, rfl, rfl, rfl, ?_⟩, ?_⟩
      · simp [appendRecord]
      · refine ⟨b, appendRecord (appendRecord h d1 b) d2 b, ?_, rfl, ?_, ?_⟩
        · unfold calcAndAppend
          rw [hcb]
          rfl
        · simp [appendRecord]
        · simp [appendRecord]

/-- The sample profile's calculation succeeds. -/
lemma sample_breakdown_some : ∃ b, compute_breakdown sampleProfile = some b := by
  obtain ⟨t, e, d, c, w, _, _, _, _, _, _, _, _, _, _, hb⟩ :=
    compute_breakdown_of_valid sampleProfile sampleProfile_valid
  exact ⟨_, hb⟩

/-- Witness for C5: two runs on the sample profile starting from the
empty history. -/
theorem C5_history_append_only_witness :
    ∃ b1 h1, calcAndAppend sampleProfile ("2026-10-11") emptyHistory = some (b1, h1) ∧
      ((h1.date = emptyHistory.date ++ ["2026-10-11"] ∧
        h1.transport = emptyHistory.transport ++ [b1.transport] ∧
        h1.home_energy = emptyHistory.home_energy ++ [b1.home_energy] ∧
        h1.diet = emptyHistory.diet ++ [b1.diet] ∧
        h1.consumption = emptyHistory.consumption ++ [b1.consumption] ∧
        h1.waste = emptyHistory.waste ++ [b1.waste] ∧
        h1.total = emptyHistory.total ++ [b1.total] ∧
        h1.date.length = emptyHistory.date.length + 1) ∧
       (∃ b2 h2, calcAndAppend sampleProfile ("2026-10-12") h1 = some (b2, h2) ∧
         b2 = b1 ∧
         h2.total = emptyHistory.total ++ [b1.total, b1.total] ∧
         h2.total.length = emptyHistory.total.length + 2)) := by
  obtain ⟨b, hb⟩ := sample_breakdown_some
  refine ⟨b, appendRecord emptyHistory ("2026-10-11") b, ?_, ?_⟩
  · unfold calcAndAppend
    rw [hb]
    rfl
  · exact C5_history_append_only sampleProfile ("2026-10-11") ("2026-10-12")
      emptyHistory b _ (by unfold calcAndAppend; rw [hb]; rfl)

/-- Every category value is bounded by the Python `max` of the five. -/
lemma le_maxEmissions (b : Breakdown) (c : Category) : bval b c ≤ maxEmissions b := by
  cases c <;> simp [bval, maxEmissions, le_max_iff, le_refl]

/-- The Python `max` of the five values is attained by one of them. -/
lemma maxEmissions_mem (b : Breakdown) :
    maxEmissions b = b.transport ∨ maxEmissions b = b.home_energy ∨
    maxEmissions b = b.diet ∨ maxEmissions b = b.consumption ∨
    maxEmissions b = b.waste := by
  unfold maxEmissions
  rcases max_choice b.transport (max b.home_energy (max b.diet (max b.consumption b.waste))) with h | h
  · exact Or.inl h
  · rcases max_choice b.home_energy (max b.diet (max b.consumption b.waste)) with h2 | h2
    · exact Or.inr (Or.inl (h.trans h2))
    · rcases max_choice b.diet (max b.consumption b.waste) with h3 | h3
      · exact Or.inr (Or.inr (Or.inl ((h.trans h2).trans h3)))
      · rcases max_choice b.consumption b.waste with h4 | h4
        · exact Or.inr (Or.inr (Or.inr (Or.inl (((h.trans h2).trans h3).trans h4))))
        · exact Or.inr (Or.inr (Or.inr (Or.inr (((h.trans h2).trans h3).trans h4))))

/-- A category value that differs from the maximum is strictly below
it. -/
lemma bval_lt_of_ne (b : Breakdown) (c : Category)
    (hne : bval b c ≠ maxEmissions b) : bval b c < maxEmissions b :=
  lt_of_le_of_ne (le_maxEmissions b c) hne

/-- C8: the recommendation selector returns the category attaining the
maximum breakdown value, ties broken by the fixed order transport,
home_energy, diet, consumption, waste (any category strictly earlier in
this order than the winner is strictly below the maximum), and its static
advice list has exactly 4 entries. -/
theorem C8_recommendation_selector (b : Breakdown) :
    bval b (highest_category b) = maxEmissions b ∧
    (∀ c, bval b c ≤ bval b (highest_category b)) ∧
    (∀ c, priorityIdx c < priorityIdx (highest_category b) →
      bval b c < maxEmissions b) ∧
    (recommendations (highest_category b)).length = 4 := by
  by_cases e1 : b.transport = maxEmissions b
  · have t1 : (b.transport == maxEmissions b) = true := by simp [e1]
    have hidx : highest_category b = Category.transport := by
      unfold highest_category highest_category_index emissionsList categoriesList
      simp [List.findIdx_cons, t1]
    rw [hidx]
    refine ⟨e1, ?_, ?_, rfl⟩
    · intro c
      have h := le_maxEmissions b c
      rw [← e1] at h
      exact h
    · intro c hlt
      exfalso
      cases c <;> simp only [priorityIdx] at hlt <;> omega
  · have f1 : (b.transport == maxEmissions b) = false := by simp [e1]
    by_cases e2 : b.home_energy = maxEmissions b
    · have t2 : (b.home_energy == maxEmissions b) = true := by simp [e2]
      have hidx : highest_category b = Category.home_energy := by
        unfold highest_category highest_category_index emissionsList categoriesList
        simp [List.findIdx_cons, f1, t2]
      rw [hidx]
      refine ⟨e2, ?_, ?_, rfl⟩
      · intro c
        have h := le_maxEmissions b c
        rw [← e2] at h
        exact h
      · intro c hlt
        cases c
        · exact bval_lt_of_ne b Category.transport e1
        · exfalso; simp only [priorityIdx] at hlt; omega
        · exfalso; simp only [priorityIdx] at hlt; omega
        · exfalso; simp only [priorityIdx] at hlt; omega
        · exfalso; simp only [priorityIdx] at hlt; omega
    · have f2 : (b.home_energy == maxEmissions b) = false := by simp [e2]
      by_cases e3 : b.diet = maxEmissions b
      · have t3 : (b.diet == maxEmissions b) = true := by simp [e3]
        have hidx : highest_category b = Category.diet := by
          unfold highest_category highest_category_index emissionsList categoriesList
          simp [List.findIdx_cons, f1, f2, t3]
        rw [hidx]
        refine ⟨e3, ?_, ?_, rfl⟩
        · intro c
          have h := le_maxEmissions b c
          rw [← e3] at h
          exact h
        · intro c hlt
          cases c
          · exact bval_lt_of_ne b Category.transport e1
          · exact bval_lt_of_ne b Category.home_energy e2
          · exfalso; simp only [priorityIdx] at hlt; omega
          · exfalso; simp only [priorityIdx] at hlt; omega
          · exfalso; simp only [priorityIdx] at hlt; omega
      · have f3 : (b.diet == maxEmissions b) = false := by simp [e3]
        by_cases e4 : b.consumption = maxEmissions b
        · have t4 : (b.consumption == maxEmissions b) = true := by simp [e4]
          have hidx : highest_category b = Category.consumption := by
            unfold highest_category highest_category_index emissionsList categoriesList
            simp [List.findIdx_cons, f1, f2, f3, t4]
          rw [hidx]
          refine ⟨e4, ?_, ?_, rfl⟩
          · intro c
            have h := le_maxEmissions b c
            rw [← e4] at h
            exact h
          · intro c hlt
            cases c
            · exact bval_lt_of_ne b Category.transport e1
            · exact bval_lt_of_ne b Category.home_energy e2
            · exact bval_lt_of_ne b Category.diet e3
            · exfalso; simp only [priorityIdx] at hlt; omega
            · exfalso; simp only [priorityIdx] at hlt; omega
        · have f4 : (b.consumption == maxEmissions b) = false := by simp [e4]
          have e5 : b.waste = maxEmissions b := by
            rcases maxEmissions_mem b with h | h | h | h | h
            · exact absurd h.symm e1
            · exact absurd h.symm e2
            · exact absurd h.symm e3
            · exact absurd h.symm e4
            · exact h.symm
          have t5 : (b.waste == maxEmissions b) = true := by simp [e5]
          have hidx : highest_category b = Category.waste := by
            unfold highest_category highest_category_index emissionsList categoriesList
            simp [List.findIdx_cons, f1, f2, f3, f4, t5]
          rw [hidx]
          refine ⟨e5, ?_, ?_, rfl⟩
          · intro c
            have h := le_maxEmissions b c
            rw [← e5] at h
            exact h
          · intro c hlt
            cases c
            · exact bval_lt_of_ne b Category.transport e1
            · exact bval_lt_of_ne b Category.home_energy e2
            · exact bval_lt_of_ne b Category.diet e3
            · exact bval_lt_of_ne b Category.consumption e4
            · exfalso; simp only [priorityIdx] at hlt; omega

/-- A concrete breakdown with a tie between home_energy and diet at the
maximum. -/
def sampleBreakdown : Breakdown :=
  { transport := 3, home_energy := 7, diet := 7, consumption := 1,
    waste := 0, total := 18 }

/-- Witness for C8: on the tied sample breakdown the selector picks
home_energy (the earlier category), transport is strictly below the
maximum, and the advice list has 4 entries. -/
theorem C8_recommendation_selector_witness :
    priorityIdx Category.transport < priorityIdx (highest_category sampleBreakdown) ∧
    bval sampleBreakdown Category.transport < maxEmissions sampleBreakdown ∧
    (recommendations (highest_category sampleBreakdown)).length = 4 :=
  ⟨by with_unfolding_all decide,
   (C8_recommendation_selector sampleBreakdown).2.2.1 Category.transport
     (by with_unfolding_all decide),
   (C8_recommendation_selector sampleBreakdown).2.2.2⟩

/-- If any single estimator fails, the whole calculation fails. -/
lemma compute_breakdown_none (p : Profile)
    (hb : transport_emissions p = none ∨ energy_emissions p = none ∨
      diet_emissions p = none ∨ consumption_emissions p = none ∨
      waste_emissions p = none) :
    compute_breakdown p = none := by
  unfold compute_breakdown
  rcases hb with hb | hb | hb | hb | hb
  · rw [hb]
    rfl
  · cases h1 : transport_emissions p
    · rfl
    · rw [hb]
      rfl
  · cases h1 : transport_emissions p
    · rfl
    · cases h2 : energy_emissions p
      · rfl
      · rw [hb]
        rfl
  · cases h1 : transport_emissions p
    · rfl
    · cases h2 : energy_emissions p
      · rfl
      · cases h3 : diet_emissions p
        · rfl
        · rw [hb]
          rfl
  · cases h1 : transport_emissions p
    · rfl
    · cases h2 : energy_emissions p
      · rfl
      · cases h3 : diet_emissions p
        · rfl
        · cases h4 : consumption_emissions p
          · rfl
          · rw [hb]
            rfl

/-- C3 (amended): when a profile's enum key actually misses its lookup —
the transport mode absent from the flat dictionary, a heating type other
than `Electric` absent from it, a diet type absent from it, a clothing
tier absent from the clothing sub-table, or a packaging tier absent from
the zero-waste sub-table — the calculation aborts (`none`) and no history
record is produced. -/
theorem C3_amended_unknown_key_fails (p : Profile) (today : String) (h : History)
    (hbad : emission_factors p.transport_mode = none ∨
      (p.heating_type ≠ "Electric" ∧ emission_factors p.heating_type = none) ∨
      emission_factors p.diet_type = none ∨
      clothing_table p.clothing_spending = none ∨
      zero_waste_table p.zero_waste = none) :
    calcAndAppend p today h = none := by
  have hnone : compute_breakdown p = none := by
    apply compute_breakdown_none
    rcases hbad with hb | ⟨hne, hb⟩ | hb | hb | hb
    · left
      have hcom : commute_emissions p = none := by
        unfold commute_emissions
        split
        · split
          · next heq =>
              rw [heq] at hb
              rw [show emission_factors ("Car (Electric)") = some (53/1000 : ℚ)
                from rfl] at hb
              exact Option.noConfusion hb
          · rw [hb]
            rfl
        · rw [hb]
          rfl
      unfold transport_emissions
      rw [hcom]
      rfl
    · right; left
      have hf : heating_factor p = none := by
        unfold heating_factor
        rw [if_neg hne, hb]
      unfold energy_emissions
      rw [hf]
      rfl
    · right; right; left
      unfold diet_emissions
      rw [hb]
      rfl
    · right; right; right; left
      unfold consumption_emissions
      rw [hb]
      rfl
    · right; right; right; right
      unfold waste_emissions
      rw [hb]
      rfl
  unfold calcAndAppend
  rw [hnone]
  rfl

/-- A profile whose transport mode is the flight key `Short Flight`: not
a transport mode, yet present in the shared flat dictionary. -/
def invalidModeProfile : Profile :=
  { sampleProfile with transport_mode := "Short Flight" }

/-- C3 counterexample: a profile whose transport-mode key is outside the
nine transport modes is not rejected — the shared flat dictionary serves
the per-flight factor 500 as a per-km factor, the calculation succeeds,
and a history record is appended. -/
theorem C3_counterexample :
    invalidModeProfile.transport_mode ∉ transportModes ∧
    emission_factors invalidModeProfile.transport_mode = some 500 ∧
    (calcAndAppend invalidModeProfile ("2026-10-12") emptyHistory).map
      (fun r => (r.2).date.length) = some 1 := by
  refine ⟨by decide, rfl, ?_⟩
  rfl

/-- A profile whose diet type is not a dictionary key at all. -/
def invalidDietProfile : Profile :=
  { sampleProfile with diet_type := "Junk Food" }

/-- Witness for the amended C3: an unknown diet key aborts the
calculation with no history mutation. -/
theorem C3_amended_unknown_key_fails_witness :
    emission_factors invalidDietProfile.diet_type = none ∧
    calcAndAppend invalidDietProfile ("2026-10-12") emptyHistory = none :=
  ⟨rfl, C3_amended_unknown_key_fails invalidDietProfile ("2026-10-12") emptyHistory
    (Or.inr (Or.inr (Or.inl rfl)))⟩

/-- C4 counterexample: at reference 0 the source's comparison performs
the division unguarded and yields a nonfinite float that is displayed —
there is no DivisionUndefined failure state — whereas the spec's
`compare` (modelled as `compare_spec`) fails with `none`. -/
theorem C4_counterexample :
    percentage_diff 5000 0 = FloatDivOutcome.nonfinite ∧
    compare_spec 5000 0 = none := by
  constructor
  · unfold percentage_diff
    rw [if_pos rfl]
  · unfold compare_spec
    rw [if_pos rfl]

/-- C4 (amended): compare(x, x) yields a 0% difference for nonzero x; for
a positive reference the signed percentage difference equals
(value − reference) / reference × 100 and is positive exactly when the
subject is higher; at reference 0 the unguarded float division yields a
nonfinite displayed value rather than a DivisionUndefined failure. -/
theorem C4_amended_percentage_diff (x v r : ℚ) (hx : x ≠ 0) (hr : 0 < r) :
    percentage_diff x x = FloatDivOutcome.value 0 ∧
    percentage_diff v r = FloatDivOutcome.value ((v - r) / r * 100) ∧
    (0 < (v - r) / r * 100 ↔ r < v) ∧
    percentage_diff v 0 = FloatDivOutcome.nonfinite := by
  refine ⟨?_, ?_, ?_, ?_⟩
  · unfold percentage_diff
    rw [if_neg hx]
    norm_num
  · unfold percentage_diff
    rw [if_neg (ne_of_gt hr)]
  · rw [div_mul_eq_mul_div, lt_div_iff₀ hr]
    constructor
    · intro h0
      nlinarith
    · intro h0
      nlinarith
  · unfold percentage_diff
    rw [if_pos rfl]

/-- Witness for the amended C4 at x = 3 and the world-average call site
(5000 vs 4700). -/
theorem C4_amended_percentage_diff_witness :
    ((3 : ℚ) ≠ 0) ∧ ((0 : ℚ) < 4700) ∧
    (percentage_diff 3 3 = FloatDivOutcome.value 0 ∧
     percentage_diff 5000 4700 = FloatDivOutcome.value (((5000 : ℚ) - 4700) / 4700 * 100) ∧
     (0 < ((5000 : ℚ) - 4700) / 4700 * 100 ↔ (4700 : ℚ) < 5000) ∧
     percentage_diff 5000 0 = FloatDivOutcome.nonfinite) :=
  ⟨by norm_num, by norm_num,
   C4_amended_percentage_diff 3 5000 4700 (by norm_num) (by norm_num)⟩

/-- A two-record dataset whose region total in the earliest year is
zero. -/
def dsZero : List RefRecord :=
  [{ country := "Xland", year := 2000, region := "Northia", perCapita := 1, kilotons := 0 },
   { country := "Xland", year := 2019, region := "Northia", perCapita := 2, kilotons := 5 }]

/-- C7 counterexample: with a zero earliest-year regional total the
source's growth computation produces the nonfinite float of an unguarded
division — an infinity, exactly what the claim excludes — while the
spec's `regionalGrowth` (modelled as `regional_growth_spec`) fails with
`none`. -/
theorem C7_counterexample :
    total_by_region_year dsZero ("Northia") 2000 = 0 ∧
    region_growth_pct dsZero ("Northia") 2000 2019 = FloatDivOutcome.nonfinite ∧
    regional_growth_spec dsZero ("Northia") 2000 2019 = none := by
  have h0 : total_by_region_year dsZero ("Northia") 2000 = 0 := by
    with_unfolding_all decide
  refine ⟨h0, ?_, ?_⟩
  · unfold region_growth_pct
    rw [if_pos h0]
  · unfold regional_growth_spec
    rw [if_pos h0]

/-- C7 (amended): for a region present in the latest year whose
earliest-year total is nonzero, the growth computation returns the
percentage change in total kilotons between the two years; when a
region's earliest-year total is zero the unguarded pandas division yields
a nonfinite float (displayed and fed to idxmax), not a DivisionUndefined
failure.  The presence hypothesis keeps the statement inside the faithful
domain of the embedding: pandas' pivot gives NaN, also nonfinite, for a
region absent from a year. -/
theorem C7_amended_regional_growth (ds : List RefRecord) (region : String) (y0 y1 : ℤ)
    (_hpresent : ∃ q ∈ ds, q.region = region ∧ q.year = y1)
    (h0 : total_by_region_year ds region y0 ≠ 0) :
    region_growth_pct ds region y0 y1 = FloatDivOutcome.value
      ((total_by_region_year ds region y1 - total_by_region_year ds region y0)
        / total_by_region_year ds region y0 * 100) ∧
    (∀ ds' region', total_by_region_year ds' region' y0 = 0 →
      region_growth_pct ds' region' y0 y1 = FloatDivOutcome.nonfinite) := by
  constructor
  · unfold region_growth_pct
    rw [if_neg h0]
    congr 1
    field_simp
  · intro ds' region' hz
    unfold region_growth_pct
    rw [if_pos hz]

/-- A two-record dataset with nonzero totals in both years. -/
def dsGrow : List RefRecord :=
  [{ country := "Xland", year := 2000, region := "Northia", perCapita := 1, kilotons := 4 },
   { country := "Xland", year := 2019, region := "Northia", perCapita := 2, kilotons := 5 }]

/-- Witness for the amended C7 on the concrete two-record dataset. -/
theorem C7_amended_regional_growth_witness :
    (∃ q ∈ dsGrow, q.region = "Northia" ∧ q.year = (2019 : ℤ)) ∧
    total_by_region_year dsGrow ("Northia") 2000 ≠ 0 ∧
    (region_growth_pct dsGrow ("Northia") 2000 2019 = FloatDivOutcome.value
      ((total_by_region_year dsGrow ("Northia") 2019
          - total_by_region_year dsGrow ("Northia") 2000)
        / total_by_region_year dsGrow ("Northia") 2000 * 100) ∧
     (∀ ds' region', total_by_region_year ds' region' 2000 = 0 →
       region_growth_pct ds' region' 2000 2019 = FloatDivOutcome.nonfinite)) :=
  ⟨by with_unfolding_all decide, by with_unfolding_all decide,
   C7_amended_regional_growth dsGrow ("Northia") 2000 2019
     (by with_unfolding_all decide) (by with_unfolding_all decide)⟩

/-- The 1-based positions of an enumerated list are 1..N. -/
lemma enum_map_succ_fst (l : List RefRecord) :
    l.enum.map (fun q => q.1 + 1) = List.range' 1 l.length := by
  have h1 : l.enum.map (fun q => q.1 + 1)
      = (l.enum.map Prod.fst).map (fun i => i + 1) := by
    rw [List.map_map]
    rfl
  rw [h1, List.enum_map_fst, List.range'_eq_map_range]
  apply List.map_congr_left
  intro i _
  omega

/-- The head of a descending insertion sort belongs to the original list
and dominates every element's key. -/
lemma insertionSort_desc_head {β : Type} [LinearOrder β] (key : RefRecord → β)
    (l : List RefRecord) (x : RefRecord) (t : List RefRecord)
    (hs : List.insertionSort (fun a b => key b ≤ key a) l = x :: t) :
    x ∈ l ∧ ∀ y ∈ l, key y ≤ key x := by
  haveI htot : IsTotal RefRecord (fun a b => key b ≤ key a) :=
    ⟨fun a b => le_total (key b) (key a)⟩
  haveI htr : IsTrans RefRecord (fun a b => key b ≤ key a) :=
    ⟨fun _ _ _ h1 h2 => le_trans h2 h1⟩
  have hperm : List.Perm (List.insertionSort (fun a b => key b ≤ key a) l) l :=
    List.perm_insertionSort _ l
  have hsorted : List.Sorted (fun a b => key b ≤ key a)
      (List.insertionSort (fun a b => key b ≤ key a) l) :=
    List.sorted_insertionSort _ l
  rw [hs] at hperm hsorted
  constructor
  · exact hperm.subset (List.mem_cons_self x t)
  · intro y hy
    have hy' : y ∈ x :: t := hperm.symm.subset hy
    rcases List.mem_cons.mp hy' with rfl | hyt
    · exact le_refl _
    · exact List.rel_of_sorted_cons hsorted y hyt

/-- C6: the global ranking for a year assigns exactly the ranks 1..N to
the N records of that year sorted descending by per-capita value, with no
gaps or duplicates, and the country of a record strictly dominating all
other records of that year gets rank 1. -/
theorem C6_global_ranking_ranks (ds : List RefRecord) (year : ℤ) (r : RefRecord)
    (hr : r ∈ ds.filter (fun q => q.year == year))
    (hmax : ∀ q ∈ ds.filter (fun q => q.year == year),
      q ≠ r → q.perCapita < r.perCapita) :
    (global_ranking ds year).map Prod.fst
        = List.range' 1 (ds.filter (fun q => q.year == year)).length ∧
    List.Sorted (fun a b : RefRecord => b.perCapita ≤ a.perCapita)
      (global_data ds year) ∧
    country_rank ds year r.country = some 1 := by
  refine ⟨?_, ?_, ?_⟩
  · have hlen : (global_data ds year).length
        = (ds.filter (fun q => q.year == year)).length := by
      unfold global_data
      exact (List.perm_insertionSort _ _).length_eq
    rw [← hlen]
    unfold global_ranking
    rw [List.map_map]
    exact enum_map_succ_fst _
  · unfold global_data
    haveI htot : IsTotal RefRecord (fun a b : RefRecord => b.perCapita ≤ a.perCapita) :=
      ⟨fun a b => le_total b.perCapita a.perCapita⟩
    haveI htr : IsTrans RefRecord (fun a b : RefRecord => b.perCapita ≤ a.perCapita) :=
      ⟨fun _ _ _ h1 h2 => le_trans h2 h1⟩
    exact List.sorted_insertionSort _ _
  · cases hgd : List.insertionSort (fun a b : RefRecord => b.perCapita ≤ a.perCapita)
        (ds.filter (fun q => q.year == year)) with
    | nil =>
        exfalso
        have hperm := List.perm_insertionSort
          (fun a b : RefRecord => b.perCapita ≤ a.perCapita)
          (ds.filter (fun q => q.year == year))
        rw [hgd] at hperm
        rw [← hperm.nil_eq] at hr
        exact absurd hr (List.not_mem_nil r)
    | cons x t =>
        have hhead := insertionSort_desc_head (fun q => q.perCapita) _ x t hgd
        have hxr : x = r := by
          by_contra hne
          have hlt : x.perCapita < r.perCapita := hmax x hhead.1 hne
          have hle : r.perCapita ≤ x.perCapita := hhead.2 r hr
          exact absurd hlt (not_lt.mpr hle)
        subst hxr
        unfold country_rank global_data
        rw [hgd]
        simp [List.findIdx?_cons]

/-- Reference records for the ranking and latest-record witnesses. -/
def recAlpha : RefRecord :=
  { country := "Alpha", year := 2000, region := "West", perCapita := 10, kilotons := 100 }

def recBeta : RefRecord :=
  { country := "Beta", year := 2000, region := "West", perCapita := 4, kilotons := 50 }

def recAlphaOld : RefRecord :=
  { country := "Alpha", year := 1990, region := "West", perCapita := 7, kilotons := 80 }

def dsA : List RefRecord := [recAlpha, recBeta, recAlphaOld]

/-- Witness for C6 on a concrete three-record dataset: the year 2000 has
two records, the ranking carries ranks [1, 2], and the dominating country
Alpha gets rank 1. -/
theorem C6_global_ranking_ranks_witness :
    (recAlpha ∈ dsA.filter (fun q => q.year == (2000 : ℤ))) ∧
    (∀ q ∈ dsA.filter (fun q => q.year == (2000 : ℤ)),
      q ≠ recAlpha → q.perCapita < recAlpha.perCapita) ∧
    ((global_ranking dsA 2000).map Prod.fst
        = List.range' 1 (dsA.filter (fun q => q.year == (2000 : ℤ))).length ∧
     List.Sorted (fun a b : RefRecord => b.perCapita ≤ a.perCapita)
       (global_data dsA 2000) ∧
     country_rank dsA 2000 recAlpha.country = some 1) :=
  ⟨by with_unfolding_all decide, by with_unfolding_all decide,
   C6_global_ranking_ranks dsA 2000 recAlpha
     (by with_unfolding_all decide) (by with_unfolding_all decide)⟩

/-- C10: whenever a country has records, the reference value used by the
per-country comparison is exactly 1000 × the dataset's
metric-tons-per-capita value of a record of that country with the maximal
year, and the comparison computes the percentage difference of the user's
total against that converted value. -/
theorem C10_reference_unit_conversion (ds : List RefRecord) (c : String) (total : ℚ)
    (hne : ds.filter (fun q => q.country == c) ≠ []) :
    ∃ r, r ∈ ds.filter (fun q => q.country == c) ∧
      (∀ q ∈ ds.filter (fun q => q.country == c), q.year ≤ r.year) ∧
      latest_emissions_per_capita ds c = some (r.perCapita * 1000) ∧
      country_comparison ds c total
        = some (percentage_diff total (r.perCapita * 1000)) := by
  cases hcd : List.insertionSort (fun a b : RefRecord => b.year ≤ a.year)
      (ds.filter (fun q => q.country == c)) with
  | nil =>
      exfalso
      have hperm := List.perm_insertionSort
        (fun a b : RefRecord => b.year ≤ a.year)
        (ds.filter (fun q => q.country == c))
      rw [hcd] at hperm
      exact hne hperm.nil_eq.symm
  | cons x t =>
      obtain ⟨hx_mem, hx_max⟩ := insertionSort_desc_head (fun q => q.year) _ x t hcd
      refine ⟨x, hx_mem, hx_max, ?_, ?_⟩
      · unfold latest_emissions_per_capita country_data
        rw [hcd]
        rfl
      · unfold country_comparison latest_emissions_per_capita country_data
        rw [hcd]
        rfl

/-- Witness for C10: on the concrete dataset the country Alpha has two
records; the most recent one (year 2000, per-capita 10) supplies the
reference 10 × 1000. -/
theorem C10_reference_unit_conversion_witness :
    (dsA.filter (fun q => q.country == "Alpha") ≠ []) ∧
    (∃ r, r ∈ dsA.filter (fun q => q.country == "Alpha") ∧
      (∀ q ∈ dsA.filter (fun q => q.country == "Alpha"), q.year ≤ r.year) ∧
      latest_emissions_per_capita dsA ("Alpha") = some (r.perCapita * 1000) ∧
      country_comparison dsA ("Alpha") 5000
        = some (percentage_diff 5000 (r.perCapita * 1000))) :=
  ⟨by with_unfolding_all decide,
   C10_reference_unit_conversion dsA ("Alpha") 5000 (by with_unfolding_all decide)⟩
